import Mathlib

/-!
Verification development for the campaign dispatch and engagement tracking
engine (Django app `campaigns`).  The Python source is shallowly embedded:

* `campaigns/tracking.py` — user-agent classifier, open-signal quality,
  IP truncation and salted hashing (with an executable SHA-256 over `Nat`).
* `campaigns/views.py` — tracking callback handlers (`track_open`,
  `track_click`, `track_cta`, `track_submit_attempt`, `track_report`,
  `track_landing_view`) and the criticality scorer `_criticality_label`.
* `campaigns/tasks.py` — the throttled dispatch scheduler
  `process_campaigns`.

The relational store is modelled as explicit lists of rows; `timezone.now()`
becomes an explicit `Time` parameter (integer seconds); the mail transport
becomes a function `CampaignRecipient → Except String Unit`.
-/

namespace Awaresim

/-- Timestamps in integer seconds (datetimes in the source). -/
abbrev Time := Int

/-! ## Data model (`campaigns/models.py`) -/

/-- The `CampaignRecipient.Status` choices. -/
inductive Status where
  | pending
  | sent
  | bounced
  | failed
deriving DecidableEq, Repr

/-- A `CampaignRecipient` row: the per-(campaign, recipient) engagement
state.  `pk` is the database primary key; `landing_slug` denormalises
`campaign.landing_slug`, which the click/cta handlers read through the
foreign key. -/
structure CampaignRecipient where
  pk : Nat
  recipient_id : Nat
  tracking_token : String
  landing_slug : String
  status : Status
  sent_at : Option Time
  opened_at : Option Time
  open_seen_at : Option Time
  open_signal_quality : String
  clicked_at : Option Time
  click_count : Nat
  landing_viewed_at : Option Time
  landing_view_count : Nat
  cta_clicked_at : Option Time
  cta_click_count : Nat
  submit_attempt_at : Option Time
  submit_attempted : Bool
  reported_at : Option Time
  report_channel : String
  time_to_click_seconds : Option Int
  time_to_report_seconds : Option Int
deriving DecidableEq, Repr

/-- An `AuditLog` row (fields of the `metadata` JSON are flattened). -/
structure AuditLog where
  action : String
  actor : Nat
  campaignId : Nat
  recipientId : Nat
  campaignRecipientId : Nat
  error : Option String
deriving DecidableEq, Repr

/-- A `Campaign` row together with its related `recipients` manager,
modelled as the list of its `CampaignRecipient` rows in insertion order. -/
structure Campaign where
  id : Nat
  start_at : Time
  end_at : Time
  throttle_per_minute : Nat
  created_by : Nat
  recipients : List CampaignRecipient
deriving DecidableEq, Repr

/-! ## Client signal classifier (`campaigns/tracking.py`) -/

/-- The frozen dataclass `ClientSignals`. -/
structure ClientSignals where
  device_type : String
  os_family : String
  browser_family : String
  email_client_hint : String
  message_provider_hint : String
  is_webview : Bool
deriving DecidableEq, Repr

/-- Python `value.lower()` — ASCII lowering; every needle in the source is ASCII. -/
def lowerStr (value : String) : List Char :=
  value.data.map Char.toLower

/-- Python's `needle in haystack` on strings: contiguous-subsequence test. -/
def containsSeq (needle : List Char) : List Char → Bool
  | [] => needle.isEmpty
  | c :: rest => needle.isPrefixOf (c :: rest) || containsSeq needle rest

/-- Embeds `_normalize_contains(value, *needles)`: does the lowered value contain
any of the needles as a substring? -/
def _normalize_contains (value : String) (needles : List String) : Bool :=
  let lowered := lowerStr value
  needles.any (fun n => containsSeq n.data lowered)

/-- Embeds `parse_user_agent(user_agent)` from `campaigns/tracking.py`. -/
def parse_user_agent (userAgent : String) : ClientSignals :=
  let ua := userAgent
  let device_type :=
    if _normalize_contains ua ["ipad", "tablet"] then "tablet"
    else if _normalize_contains ua ["iphone", "android", "mobile"] then "mobile"
    else if ua ≠ "" then "desktop"
    else "unknown"
  let os_family :=
    if _normalize_contains ua ["windows"] then "Windows"
    else if _normalize_contains ua ["mac os x", "macintosh"] then "macOS"
    else if _normalize_contains ua ["iphone", "ipad", "ios"] then "iOS"
    else if _normalize_contains ua ["android"] then "Android"
    else if _normalize_contains ua ["linux"] then "Linux"
    else "other"
  let browser_family :=
    if _normalize_contains ua ["edg/"] then "Edge"
    else if _normalize_contains ua ["chrome/"] then "Chrome"
    else if _normalize_contains ua ["safari/"] && !(_normalize_contains ua ["chrome/"]) then "Safari"
    else if _normalize_contains ua ["firefox/"] then "Firefox"
    else "other"
  let email_client_hint :=
    if _normalize_contains ua ["outlook"] then "Outlook"
    else if _normalize_contains ua ["owa", "outlook web"] then "OWA"
    else if _normalize_contains ua ["gmail"] then
      (if _normalize_contains ua ["mobile", "iphone", "android"] then "GmailMobile"
       else "GmailWeb")
    else if _normalize_contains ua ["apple mail", "mail/"] then "AppleMail"
    else if _normalize_contains ua ["thunderbird"] then "Thunderbird"
    else "other"
  let message_provider_hint :=
    if _normalize_contains ua ["outlook", "owa"] then "m365"
    else if _normalize_contains ua ["gmail"] then "google"
    else "other"
  let is_webview :=
    _normalize_contains ua ["wv", "webview", "line/"]
      || _normalize_contains ua ["instagram", "fbav", "fb_iab"]
  ⟨device_type, os_family, browser_family, email_client_hint,
    message_provider_hint, is_webview⟩

/-- Embeds `infer_open_signal_quality(user_agent)` from `campaigns/tracking.py`. -/
def infer_open_signal_quality (userAgent : String) : String :=
  let ua := userAgent
  if _normalize_contains ua ["applemail", "mail/"]
      && _normalize_contains ua ["mac os x", "iphone", "ipad"] then "low"
  else if _normalize_contains ua ["googleimageproxy", "gmail"]
      && containsSeq "google".data (lowerStr ua) then "low"
  else "medium"

/-! ## Privacy-preserving network identity (`campaigns/tracking.py`)

`truncate_ip` delegates to Python's `ipaddress` module; the relevant
parsing and formatting routines of CPython's `ipaddress` are embedded
below.  Zone/scope suffixes (`%eth0`) are not modelled: an address
carrying one is treated as unparseable. -/

/-- Decimal digit value, ASCII only (Python's `isascii() and isdigit()`). -/
def decDigit (c : Char) : Bool := '0' ≤ c && c ≤ '9'

/-- Hex digit test as in `ipaddress._BaseV6._HEX_DIGITS`. -/
def hexDigit (c : Char) : Bool :=
  decDigit c || ('a' ≤ c && c ≤ 'f') || ('A' ≤ c && c ≤ 'F')

def hexVal (c : Char) : Nat :=
  if decDigit c then c.toNat - 48
  else if 'a' ≤ c && c ≤ 'f' then c.toNat - 87
  else c.toNat - 55

/-- Python's `str.split(sep)` for a single-character separator. -/
def splitOnChar (c : Char) : List Char → List (List Char)
  | [] => [[]]
  | x :: xs =>
    let r := splitOnChar c xs
    if x = c then [] :: r
    else
      match r with
      | g :: gs => (x :: g) :: gs
      | [] => [[x]]

/-- Embeds `ipaddress._BaseV4._parse_octet`: 1–3 ASCII decimal digits, no leading
zero (unless the octet is exactly "0"), value at most 255. -/
def parseDecOctet (cs : List Char) : Option Nat :=
  if cs = [] then none
  else if !(cs.all decDigit) then none
  else if cs.length > 3 then none
  else if cs.length > 1 && cs.headD ' ' = '0' then none
  else
    let v := cs.foldl (fun acc c => acc * 10 + (c.toNat - 48)) 0
    if v > 255 then none else some v

/-- Embeds `ipaddress._BaseV4._ip_int_from_string`: exactly four dot-separated
octets, folded big-endian into one integer. -/
def parseIPv4 (cs : List Char) : Option Nat :=
  match splitOnChar '.' cs with
  | [p1, p2, p3, p4] =>
    match parseDecOctet p1, parseDecOctet p2, parseDecOctet p3, parseDecOctet p4 with
    | some a, some b, some c, some d => some (((a * 256 + b) * 256 + c) * 256 + d)
    | _, _, _, _ => none
  | _ => none

/-- Embeds `ipaddress._BaseV6._parse_hextet`: 1–4 hex digits. -/
def parseHextet (cs : List Char) : Option Nat :=
  if cs = [] then none
  else if !(cs.all hexDigit) then none
  else if cs.length > 4 then none
  else some (cs.foldl (fun acc c => acc * 16 + hexVal c) 0)

/-- Fold a run of hextet groups onto an accumulator, 16 bits at a time. -/
def foldHextets (ps : List (List Char)) (init : Nat) : Option Nat :=
  ps.foldl
    (fun acc p =>
      match acc, parseHextet p with
      | some v, some h => some (v * 65536 + h)
      | _, _ => none)
    (some init)

/-- Lowercase hex rendering with no padding (Python's `'%x' % n`). -/
def hexChar (n : Nat) : Char :=
  if n < 10 then Char.ofNat (48 + n) else Char.ofNat (87 + n)

def hexStrGo : Nat → Nat → List Char
  | 0, _ => []
  | fuel + 1, n =>
    if n < 16 then [hexChar n]
    else hexStrGo fuel (n / 16) ++ [hexChar (n % 16)]

def hexStr (n : Nat) : List Char := hexStrGo (n + 1) n

/-- Decimal rendering (Python's `str(n)` for naturals). -/
def decStrGo : Nat → Nat → List Char
  | 0, _ => []
  | fuel + 1, n =>
    if n < 10 then [Char.ofNat (48 + n)]
    else decStrGo fuel (n / 10) ++ [Char.ofNat (48 + n % 10)]

def decStr (n : Nat) : List Char := decStrGo (n + 1) n

/-- An embedded IPv4 tail (`"::ffff:1.2.3.4"`) is parsed as an IPv4 address
and replaced by its two 16-bit hextets, as CPython does. -/
def expandV4Tail (parts : List (List Char)) : Option (List (List Char)) :=
  match parts.getLast? with
  | none => some parts
  | some last =>
    if last.contains '.' then
      match parseIPv4 last with
      | none => none
      | some ip4 => some (parts.dropLast ++ [hexStr (ip4 / 65536), hexStr (ip4 % 65536)])
    else some parts

/-- Indices of empty groups strictly inside the part list (candidate `::`). -/
def innerEmptyIndices (parts : List (List Char)) : List Nat :=
  (List.range parts.length).filter
    (fun i => 0 < i && i + 1 < parts.length && parts.getD i [' '] = [])

/-- Embeds `ipaddress._BaseV6._ip_int_from_string`. -/
def parseIPv6 (cs : List Char) : Option Nat :=
  let parts0 := splitOnChar ':' cs
  if parts0.length < 3 then none
  else
    match expandV4Tail parts0 with
    | none => none
    | some parts =>
      if parts.length > 9 then none
      else
        match innerEmptyIndices parts with
        | [] =>
          if parts.length ≠ 8 then none
          else if parts.headD [] = [] then none
          else if parts.getLast? = some [] then none
          else foldHextets parts 0
        | [skipIndex] =>
          let partsHi0 := skipIndex
          let partsLo0 := parts.length - skipIndex - 1
          let headEmpty := parts.headD [' '] = []
          let lastEmpty := parts.getLast? = some []
          if headEmpty && partsHi0 ≠ 1 then none
          else if lastEmpty && partsLo0 ≠ 1 then none
          else
            let partsHi := if headEmpty then partsHi0 - 1 else partsHi0
            let partsLo := if lastEmpty then partsLo0 - 1 else partsLo0
            if partsHi + partsLo + 1 > 8 then none
            else
              let skipped := 8 - (partsHi + partsLo)
              match foldHextets (parts.take partsHi) 0 with
              | none => none
              | some hi => foldHextets (parts.drop (parts.length - partsLo)) (hi * 65536 ^ skipped)
        | _ => none

/-- The result of `ipaddress.ip_address`: IPv4 is tried first. -/
inductive IPAddr where
  | v4 (ip : Nat)
  | v6 (ip : Nat)
deriving DecidableEq, Repr

def parseIP (s : String) : Option IPAddr :=
  match parseIPv4 s.data with
  | some ip => some (.v4 ip)
  | none =>
    match parseIPv6 s.data with
    | some ip => some (.v6 ip)
    | none => none

/-- Python `str(IPv4Address)` for an integer address. -/
def fmtIPv4 (ip : Nat) : String :=
  String.mk (decStr (ip / 16777216 % 256) ++ '.' ::
    (decStr (ip / 65536 % 256) ++ '.' :: (decStr (ip / 256 % 256) ++ '.' :: decStr (ip % 256))))

/-- Best run of zero hextets, as in `ipaddress._BaseV6._compress_hextets`:
returns (start, length) of the leftmost longest run of "0" groups. -/
def bestRunGo : List (List Char) → Nat → Nat → Nat → Nat → Nat → Nat × Nat
  | [], _, _, _, bs, bl => (bs, bl)
  | h :: t, i, cs, cl, bs, bl =>
    if h = ['0'] then
      let cs2 := if cl = 0 then i else cs
      let cl2 := cl + 1
      if cl2 > bl then bestRunGo t (i + 1) cs2 cl2 cs2 cl2
      else bestRunGo t (i + 1) cs2 cl2 bs bl
    else bestRunGo t (i + 1) 0 0 bs bl

/-- Embeds `ipaddress._BaseV6._compress_hextets`. -/
def compressHextets (hs : List (List Char)) : List (List Char) :=
  let run := bestRunGo hs 0 0 0 0 0
  if run.2 > 1 then
    let hs2 := if run.1 + run.2 = hs.length then hs ++ [[]] else hs
    let hs3 := hs2.take run.1 ++ [] :: hs2.drop (run.1 + run.2)
    if run.1 = 0 then [] :: hs3 else hs3
  else hs

def joinWith (c : Char) : List (List Char) → List Char
  | [] => []
  | [x] => x
  | x :: xs => x ++ c :: joinWith c xs

/-- Python `str(IPv6Address)` for an integer address (compressed lowercase form). -/
def fmtIPv6 (ip : Nat) : String :=
  let groups := (List.range 8).map (fun i => ip / 65536 ^ (7 - i) % 65536)
  String.mk (joinWith ':' (compressHextets (groups.map hexStr)))

/-- Embeds `truncate_ip(ip_value)` from `campaigns/tracking.py`: parse, truncate to
the /24 (IPv4) or /48 (IPv6) network, and render `str(network)`.  An empty
or unparseable value yields the empty string. -/
def truncate_ip (s : String) : String :=
  if s = "" then ""
  else
    match parseIP s with
    | none => ""
    | some (.v4 ip) => fmtIPv4 (ip / 256 * 256) ++ "/24"
    | some (.v6 ip) => fmtIPv6 (ip / 2 ^ 80 * 2 ^ 80) ++ "/48"

/-! ## SHA-256 (for `hash_ip`), over `Nat` with explicit mod-2^32 -/

/-- UTF-8 encoding of one scalar value. -/
def utf8Char (c : Char) : List Nat :=
  let n := c.toNat
  if n < 128 then [n]
  else if n < 2048 then [192 + n / 64, 128 + n % 64]
  else if n < 65536 then [224 + n / 4096, 128 + n / 64 % 64, 128 + n % 64]
  else [240 + n / 262144, 128 + n / 4096 % 64, 128 + n / 64 % 64, 128 + n % 64]

def utf8Encode (s : String) : List Nat :=
  s.data.foldr (fun c acc => utf8Char c ++ acc) []

def rotr32 (n x : Nat) : Nat :=
  ((x >>> n) ||| (x <<< (32 - n))) % 4294967296

def sha256K : List Nat :=
  [1116352408, 1899447441, 3049323471, 3921009573, 961987163, 1508970993,
   2453635748, 2870763221, 3624381080, 310598401, 607225278, 1426881987,
   1925078388, 2162078206, 2614888103, 3248222580, 3835390401, 4022224774,
   264347078, 604807628, 770255983, 1249150122, 1555081692, 1996064986,
   2554220882, 2821834349, 2952996808, 3210313671, 3336571891, 3584528711,
   113926993, 338241895, 666307205, 773529912, 1294757372, 1396182291,
   1695183700, 1986661051, 2177026350, 2456956037, 2730485921, 2820302411,
   3259730800, 3345764771, 3516065817, 3600352804, 4094571909, 275423344,
   430227734, 506948616, 659060556, 883997877, 958139571, 1322822218,
   1537002063, 1747873779, 1955562222, 2024104815, 2227730452, 2361852424,
   2428436474, 2756734187, 3204031479, 3329325298]

def sha256Init : List Nat :=
  [1779033703, 3144134277, 1013904242, 2773480762,
   1359893119, 2600822924, 528734635, 1541459225]

def bigEndian8 (n : Nat) : List Nat :=
  [n >>> 56 % 256, n >>> 48 % 256, n >>> 40 % 256, n >>> 32 % 256,
   n >>> 24 % 256, n >>> 16 % 256, n >>> 8 % 256, n % 256]

/-- Merkle–Damgård padding: 0x80, zeros to 56 mod 64, 64-bit bit length. -/
def sha256Pad (msg : List Nat) : List Nat :=
  let len := msg.length
  msg ++ 0x80 :: (List.replicate ((119 - len % 64) % 64) 0 ++ bigEndian8 (8 * len))

def chunksGo : Nat → List Nat → List (List Nat)
  | 0, _ => []
  | _, [] => []
  | fuel + 1, l => l.take 64 :: chunksGo fuel (l.drop 64)

def chunks64 (l : List Nat) : List (List Nat) := chunksGo l.length l

def toWords : List Nat → List Nat
  | b0 :: b1 :: b2 :: b3 :: rest =>
    (((b0 * 256 + b1) * 256 + b2) * 256 + b3) :: toWords rest
  | _ => []

def smallSigma0 (x : Nat) : Nat := rotr32 7 x ^^^ rotr32 18 x ^^^ (x >>> 3)
def smallSigma1 (x : Nat) : Nat := rotr32 17 x ^^^ rotr32 19 x ^^^ (x >>> 10)
def bigSigma0 (x : Nat) : Nat := rotr32 2 x ^^^ rotr32 13 x ^^^ rotr32 22 x
def bigSigma1 (x : Nat) : Nat := rotr32 6 x ^^^ rotr32 11 x ^^^ rotr32 25 x
def chF (x y z : Nat) : Nat := (x &&& y) ^^^ ((x ^^^ 4294967295) &&& z)
def majF (x y z : Nat) : Nat := (x &&& y) ^^^ (x &&& z) ^^^ (y &&& z)

def extendW : Nat → List Nat → List Nat
  | 0, w => w
  | n + 1, w =>
    let i := w.length
    let next :=
      (smallSigma1 (w.getD (i - 2) 0) + w.getD (i - 7) 0 +
        smallSigma0 (w.getD (i - 15) 0) + w.getD (i - 16) 0) % 4294967296
    extendW n (w ++ [next])

def sha256Round (st : List Nat) (kw : Nat × Nat) : List Nat :=
  match st with
  | [a, b, c, d, e, f, g, h] =>
    let t1 := (h + bigSigma1 e + chF e f g + kw.1 + kw.2) % 4294967296
    let t2 := (bigSigma0 a + majF a b c) % 4294967296
    [(t1 + t2) % 4294967296, a, b, c, (d + t1) % 4294967296, e, f, g]
  | other => other

def compressBlock (h : List Nat) (block : List Nat) : List Nat :=
  let w := extendW 48 (toWords block)
  let st := (sha256K.zip w).foldl sha256Round h
  (h.zip st).map (fun p => (p.1 + p.2) % 4294967296)

def sha256Bytes (msg : List Nat) : List Nat :=
  let hs := (chunks64 (sha256Pad msg)).foldl compressBlock sha256Init
  hs.foldr (fun w acc => bigEndian8 w |>.drop 4 |>.append acc) []

def byteHexChars (b : Nat) : List Char := [hexChar (b / 16), hexChar (b % 16)]

/-- Python `hashlib.sha256(...).hexdigest()`. -/
def sha256Hex (msg : List Nat) : String :=
  String.mk ((sha256Bytes msg).foldr (fun b acc => byteHexChars b ++ acc) [])

/-- Embeds `hash_ip(ip_value)` from `campaigns/tracking.py`; the configured
`settings.IP_HASH_SALT` is passed explicitly.  An empty value short-circuits
to the empty string; any other string — parseable as an IP or not — is
hashed as `sha256(f"{salt}:{ip_value}")`. -/
def hash_ip (salt : String) (ipValue : String) : String :=
  if ipValue = "" then ""
  else sha256Hex (utf8Encode (salt ++ ":" ++ ipValue))

/-! ## Tracking callback handlers (`campaigns/views.py`) -/

/-- The parts of an HTTP request the tracking views read.  Absent headers
are the empty string; `tz` and `channel` are optional query parameters. -/
structure Request where
  userAgent : String
  forwardedFor : String
  remoteAddr : String
  referer : String
  acceptLanguage : String
  accept : String
  tz : Option String
  channel : Option String
deriving DecidableEq, Repr

/-- Python's `str.strip()` (default whitespace). -/
def stripWs (cs : List Char) : List Char :=
  ((cs.dropWhile Char.isWhitespace).reverse.dropWhile Char.isWhitespace).reverse

/-- Embeds `_get_client_ip(request)`: first entry of `X-Forwarded-For` when
present, else `REMOTE_ADDR`. -/
def _get_client_ip (req : Request) : String :=
  if req.forwardedFor ≠ "" then
    String.mk (stripWs ((splitOnChar ',' req.forwardedFor.data).headD []))
  else req.remoteAddr

/-- Python's `int(raw)` on a string: optional sign, decimal digits,
surrounding whitespace allowed (digit-group underscores not modelled). -/
def pyParseInt (s : String) : Option Int :=
  let cs := stripWs s.data
  let digitsToNat := fun (ds : List Char) =>
    if ds ≠ [] && ds.all decDigit then
      some (ds.foldl (fun acc c => acc * 10 + (c.toNat - 48)) 0)
    else none
  match cs with
  | '+' :: ds => (digitsToNat ds).map Int.ofNat
  | '-' :: ds => (digitsToNat ds).map (fun n => -(n : Int))
  | ds => (digitsToNat ds).map Int.ofNat

/-- Embeds `_parse_timezone_offset(request)`: invalid values degrade to `None`. -/
def _parse_timezone_offset (req : Request) : Option Int :=
  match req.tz with
  | none => none
  | some raw => pyParseInt raw

/-- Embeds `_event_metadata(request)`. -/
def _event_metadata (req : Request) : List (String × String) :=
  [("user_agent", req.userAgent), ("referer", req.referer)]

/-- The keyword payload built by `_build_event_payload`. -/
structure EventPayload where
  ip_address_truncated : String
  ip_hash : String
  user_agent : String
  referer : String
  device_type : String
  os_family : String
  browser_family : String
  email_client_hint : String
  message_provider_hint : String
  is_webview : Bool
  language : String
  timezone_offset_minutes : Option Int
  open_signal_quality : String
  metadata : List (String × String)
deriving DecidableEq, Repr

/-- Embeds `_build_event_payload(request, signal_quality=...)`; the hash salt from
settings is passed explicitly. -/
def _build_event_payload (salt : String) (req : Request) (signalQuality : String) :
    EventPayload :=
  let userAgent := req.userAgent
  let signals := parse_user_agent userAgent
  let clientIp := _get_client_ip req
  { ip_address_truncated := truncate_ip clientIp
    ip_hash := hash_ip salt clientIp
    user_agent := userAgent
    referer := req.referer
    device_type := signals.device_type
    os_family := signals.os_family
    browser_family := signals.browser_family
    email_client_hint := signals.email_client_hint
    message_provider_hint := signals.message_provider_hint
    is_webview := signals.is_webview
    language := req.acceptLanguage
    timezone_offset_minutes := _parse_timezone_offset req
    open_signal_quality := signalQuality
    metadata := _event_metadata req }

/-- The `EmailEvent.EventType` choices. -/
inductive EventType where
  | open
  | click
  | landing_view
  | cta_click
  | submit_attempt
  | report
deriving DecidableEq, Repr

/-- An `EmailEvent` row. -/
structure EmailEvent where
  recipientPk : Nat
  event_type : EventType
  payload : EventPayload
deriving DecidableEq, Repr

/-- The store the tracking views touch: `CampaignRecipient` rows plus the
append-only `EmailEvent` log. -/
structure TrackDb where
  recipients : List CampaignRecipient
  events : List EmailEvent
deriving DecidableEq, Repr

/-- Embeds `get_object_or_404(CampaignRecipient, tracking_token=token)`:
`tracking_token` is unique, so the first match is the row. -/
def findRecipient (db : TrackDb) (token : String) : Option CampaignRecipient :=
  db.recipients.find? (fun r => r.tracking_token = token)

/-- Embeds `CampaignRecipient.objects.filter(pk=...).update(...)` applied to the
in-memory table. -/
def updateByPk (db : TrackDb) (pk : Nat) (f : CampaignRecipient → CampaignRecipient) :
    TrackDb :=
  { db with recipients := db.recipients.map (fun r => if r.pk = pk then f r else r) }

/-- The responses the tracking views produce. -/
inductive TrackResponse where
  | notFound
  | pixel
  | redirect (path : String)
  | jsonOk
  | htmlOk
deriving DecidableEq, Repr

/-- Embeds `reverse("campaigns:landing", ...)` per `campaigns/urls.py`. -/
def landingPath (slug : String) : String := "/l/" ++ slug ++ "/"

/-- The row update of `track_open`: `open_seen_at` and
`open_signal_quality` are written unconditionally; `opened_at` only when
it is still null. -/
def trackOpenUpdate (now : Time) (signalQuality : String) (r : CampaignRecipient) :
    CampaignRecipient :=
  { r with
    open_seen_at := some now
    open_signal_quality := signalQuality
    opened_at := match r.opened_at with | none => some now | some t => some t }

/-- Embeds `track_open(request, token)`. -/
def track_open (salt : String) (now : Time) (req : Request) (token : String)
    (db : TrackDb) : TrackResponse × TrackDb :=
  match findRecipient db token with
  | none => (.notFound, db)
  | some cr =>
    let q := infer_open_signal_quality req.userAgent
    let ev : EmailEvent :=
      { recipientPk := cr.pk, event_type := .open, payload := _build_event_payload salt req q }
    let db := { db with events := db.events ++ [ev] }
    (.pixel, updateByPk db cr.pk (trackOpenUpdate now q))

/-- The row update of `track_click`: the counter always increments;
`clicked_at` and the latency are set only on the first click, the latency
only when `sent_at` is set. -/
def trackClickUpdate (now : Time) (r : CampaignRecipient) : CampaignRecipient :=
  if r.clicked_at = none then
    { r with
      click_count := r.click_count + 1
      clicked_at := some now
      time_to_click_seconds :=
        match r.sent_at with
        | some s => some (now - s)
        | none => r.time_to_click_seconds }
  else { r with click_count := r.click_count + 1 }

/-- Embeds `track_click(request, token)`. -/
def track_click (salt : String) (now : Time) (req : Request) (token : String)
    (db : TrackDb) : TrackResponse × TrackDb :=
  match findRecipient db token with
  | none => (.notFound, db)
  | some cr =>
    let ev : EmailEvent :=
      { recipientPk := cr.pk, event_type := .click, payload := _build_event_payload salt req "" }
    let db := { db with events := db.events ++ [ev] }
    (.redirect (landingPath cr.landing_slug), updateByPk db cr.pk (trackClickUpdate now))

/-- The row update of `track_cta`. -/
def trackCtaUpdate (now : Time) (r : CampaignRecipient) : CampaignRecipient :=
  if r.cta_clicked_at = none then
    { r with cta_click_count := r.cta_click_count + 1, cta_clicked_at := some now }
  else { r with cta_click_count := r.cta_click_count + 1 }

/-- Embeds `track_cta(request, token)`. -/
def track_cta (salt : String) (now : Time) (req : Request) (token : String)
    (db : TrackDb) : TrackResponse × TrackDb :=
  match findRecipient db token with
  | none => (.notFound, db)
  | some cr =>
    let ev : EmailEvent :=
      { recipientPk := cr.pk, event_type := .cta_click, payload := _build_event_payload salt req "" }
    let db := { db with events := db.events ++ [ev] }
    (.redirect (landingPath cr.landing_slug), updateByPk db cr.pk (trackCtaUpdate now))

/-- The row update of `track_submit_attempt`. -/
def trackSubmitUpdate (now : Time) (r : CampaignRecipient) : CampaignRecipient :=
  if r.submit_attempt_at = none then
    { r with submit_attempted := true, submit_attempt_at := some now }
  else { r with submit_attempted := true }

/-- Embeds `track_submit_attempt(request, token)`; the response depends on the
`Accept` header containing `application/json`. -/
def track_submit_attempt (salt : String) (now : Time) (req : Request) (token : String)
    (db : TrackDb) : TrackResponse × TrackDb :=
  match findRecipient db token with
  | none => (.notFound, db)
  | some cr =>
    let ev : EmailEvent :=
      { recipientPk := cr.pk, event_type := .submit_attempt
        payload := _build_event_payload salt req "" }
    let db := { db with events := db.events ++ [ev] }
    let resp := if containsSeq "application/json".data req.accept.data then
        TrackResponse.jsonOk
      else TrackResponse.htmlOk
    (resp, updateByPk db cr.pk (trackSubmitUpdate now))

/-- The row update of `track_report`: `report_channel` is written
unconditionally; `reported_at` and the latency only on the first report. -/
def trackReportUpdate (now : Time) (channel : String) (r : CampaignRecipient) :
    CampaignRecipient :=
  if r.reported_at = none then
    { r with
      report_channel := channel
      reported_at := some now
      time_to_report_seconds :=
        match r.sent_at with
        | some s => some (now - s)
        | none => r.time_to_report_seconds }
  else { r with report_channel := channel }

/-- Embeds `track_report(request, token)`. -/
def track_report (salt : String) (now : Time) (req : Request) (token : String)
    (db : TrackDb) : TrackResponse × TrackDb :=
  match findRecipient db token with
  | none => (.notFound, db)
  | some cr =>
    let channel := req.channel.getD "other"
    let payload := _build_event_payload salt req ""
    let payload := { payload with metadata := payload.metadata ++ [("report_channel", channel)] }
    let ev : EmailEvent := { recipientPk := cr.pk, event_type := .report, payload := payload }
    let db := { db with events := db.events ++ [ev] }
    (.jsonOk, updateByPk db cr.pk (trackReportUpdate now channel))

/-- The row update of `track_landing_view`. -/
def trackLandingUpdate (now : Time) (r : CampaignRecipient) : CampaignRecipient :=
  if r.landing_viewed_at = none then
    { r with landing_view_count := r.landing_view_count + 1, landing_viewed_at := some now }
  else { r with landing_view_count := r.landing_view_count + 1 }

/-- Embeds `track_landing_view(request, token)`. -/
def track_landing_view (salt : String) (now : Time) (req : Request) (token : String)
    (db : TrackDb) : TrackResponse × TrackDb :=
  match findRecipient db token with
  | none => (.notFound, db)
  | some cr =>
    let ev : EmailEvent :=
      { recipientPk := cr.pk, event_type := .landing_view
        payload := _build_event_payload salt req "" }
    let db := { db with events := db.events ++ [ev] }
    (.pixel, updateByPk db cr.pk (trackLandingUpdate now))

/-- Embeds `_criticality_label(recipient)` from `campaigns/views.py`.  Python
truthiness: a datetime field is truthy iff non-null, a counter iff
nonzero. -/
def _criticality_label (r : CampaignRecipient) : String :=
  if r.reported_at.isSome then "Crítica"
  else if r.submit_attempted then "Alta"
  else if r.cta_click_count ≠ 0 ∨ r.landing_view_count ≠ 0 then "Media"
  else if r.opened_at.isSome ∨ r.open_seen_at.isSome then "Baja"
  else "Sin señales"

/-! ## Throttled dispatch scheduler (`campaigns/tasks.py`) -/

/-- One recipient's isolated unit of work inside `process_campaigns`:
attempt delivery; on success mark `sent` with `sent_at` and write a
"campaign_email_sent" audit entry; on any exception mark `bounced` and
write a "campaign_email_failed" audit entry carrying the error text. -/
def attemptSend (send : CampaignRecipient → Except String Unit) (actor campaignId : Nat)
    (now : Time) (r : CampaignRecipient) : CampaignRecipient × AuditLog :=
  match send r with
  | .ok _ =>
    ({ r with status := .sent, sent_at := some now },
     { action := "campaign_email_sent", actor := actor, campaignId := campaignId
       recipientId := r.recipient_id, campaignRecipientId := r.pk, error := none })
  | .error e =>
    ({ r with status := .bounced },
     { action := "campaign_email_failed", actor := actor, campaignId := campaignId
       recipientId := r.recipient_id, campaignRecipientId := r.pk, error := some e })

/-- The per-campaign body of `process_campaigns`: select up to
`throttle` pending rows in insertion order and attempt each one,
continuing past failures.  Returns the updated rows and the audit entries
in attempt order. -/
def tick (send : CampaignRecipient → Except String Unit) (actor campaignId : Nat)
    (now : Time) (k : Nat) :
    List CampaignRecipient → List CampaignRecipient × List AuditLog
  | [] => ([], [])
  | r :: rs =>
    if k = 0 then (r :: rs, [])
    else if r.status = .pending then
      let ra := attemptSend send actor campaignId now r
      let rest := tick send actor campaignId now (k - 1) rs
      (ra.1 :: rest.1, ra.2 :: rest.2)
    else
      let rest := tick send actor campaignId now k rs
      (r :: rest.1, rest.2)

/-- Embeds `Campaign.objects.filter(start_at__lte=now, end_at__gte=now)`. -/
def dueCampaigns (now : Time) (cs : List Campaign) : List Campaign :=
  cs.filter (fun c => decide (c.start_at ≤ now) && decide (now ≤ c.end_at))

/-- Embeds `process_campaigns()`: tick every campaign whose window matches the
status filter; returns the updated due campaigns and all audit entries. -/
def process_campaigns (send : CampaignRecipient → Except String Unit) (now : Time)
    (cs : List Campaign) : List Campaign × List AuditLog :=
  ((dueCampaigns now cs).map
    (fun c =>
      { c with
        recipients := (tick send c.created_by c.id now c.throttle_per_minute c.recipients).1 }),
   (dueCampaigns now cs).foldr
    (fun c acc => (tick send c.created_by c.id now c.throttle_per_minute c.recipients).2 ++ acc)
    [])

/-! ## Concrete fixtures used by counterexamples and witnesses -/

/-- A freshly created `CampaignRecipient` row (model defaults). -/
def baseRecipient : CampaignRecipient :=
  { pk := 1, recipient_id := 10, tracking_token := "tok", landing_slug := "promo",
    status := .pending, sent_at := none, opened_at := none, open_seen_at := none,
    open_signal_quality := "", clicked_at := none, click_count := 0,
    landing_viewed_at := none, landing_view_count := 0, cta_clicked_at := none,
    cta_click_count := 0, submit_attempt_at := none, submit_attempted := false,
    reported_at := none, report_channel := "", time_to_click_seconds := none,
    time_to_report_seconds := none }

/-- A request with no headers and no query parameters. -/
def emptyRequest : Request :=
  { userAgent := "", forwardedFor := "", remoteAddr := "", referer := "",
    acceptLanguage := "", accept := "", tz := none, channel := none }

/-- A store holding the single recipient `baseRecipient`. -/
def demoDb : TrackDb := { recipients := [baseRecipient], events := [] }

/-- A pending row with a given primary key. -/
def pendingRow (i : Nat) : CampaignRecipient :=
  { baseRecipient with pk := i, recipient_id := 100 + i }

/-- Twelve pending rows, primary keys 1..12 in insertion order. -/
def twelveRows : List CampaignRecipient :=
  (List.range 12).map (fun i => pendingRow (i + 1))

/-- Five pending rows, primary keys 1..5 in insertion order. -/
def fiveRows : List CampaignRecipient :=
  (List.range 5).map (fun i => pendingRow (i + 1))

/-- A transport that raises for primary key 3 and delivers otherwise. -/
def sendFail3 (r : CampaignRecipient) : Except String Unit :=
  if r.pk = 3 then .error "SMTP 451 temporary failure" else .ok ()

/-- A campaign whose window is `start_at = 0`, `end_at = 10`. -/
def demoCampaign : Campaign :=
  { id := 1, start_at := 0, end_at := 10, throttle_per_minute := 5,
    created_by := 1, recipients := [] }

/-! ## C1 — open timestamps under repeated opens -/

/-- Folding a sequence of open callbacks (time, signal quality) over the
recipient-row update of `track_open`. -/
def applyOpens (r : CampaignRecipient) : List (Time × String) → CampaignRecipient
  | [] => r
  | o :: os => applyOpens (trackOpenUpdate o.1 o.2 r) os

theorem applyOpens_opened_at_some (r : CampaignRecipient) (t : Time)
    (h : r.opened_at = some t) : ∀ os, (applyOpens r os).opened_at = some t := by
  intro os
  induction os generalizing r with
  | nil => exact h
  | cons o os ih =>
    show (applyOpens (trackOpenUpdate o.1 o.2 r) os).opened_at = some t
    exact ih _ (by simp [trackOpenUpdate, h])

/-- C1, counterexample: a second open callback through `track_open`
overwrites `open_seen_at` (set to 5 by the first open, moved to 9 by the
second), refuting the write-once property claimed for `open_seen_at`. -/
theorem C1_counterexample :
    ((track_open "s" 5 emptyRequest "tok" demoDb).2.recipients.map
        (fun r => r.open_seen_at) = [some 5]) ∧
    (((track_open "s" 9 emptyRequest "tok"
          (track_open "s" 5 emptyRequest "tok" demoDb).2).2).recipients.map
        (fun r => r.open_seen_at) = [some 9]) := by decide

/-- C1, amended: `opened_at` is set by the first open and never changed by
any later open; `open_seen_at` is overwritten by every open with that
open's time (it is not write-once). -/
theorem C1_amended (r : CampaignRecipient) (t : Time) (q : String)
    (os : List (Time × String)) :
    (r.opened_at = some t → (applyOpens r os).opened_at = some t) ∧
    (r.opened_at = none → (applyOpens r ((t, q) :: os)).opened_at = some t) ∧
    ((trackOpenUpdate t q r).open_seen_at = some t) := by
  refine ⟨fun h => applyOpens_opened_at_some r t h os, fun h => ?_, rfl⟩
  show (applyOpens (trackOpenUpdate t q r) os).opened_at = some t
  exact applyOpens_opened_at_some _ t (by simp [trackOpenUpdate, h]) os

/-- C1 witness: the amended theorem evaluated on a concrete row and a
concrete two-open sequence. -/
theorem C1_amended_witness :
    (applyOpens baseRecipient [(5, "medium"), (9, "low")]).opened_at = some 5 :=
  (C1_amended baseRecipient 5 "medium" [(9, "low")]).2.1 rfl

/-! ## C3 — unknown tracking token -/

/-- C3: with a token matching no row, every tracking endpoint returns the
not-found response and leaves the store — recipients and the EmailEvent
log — exactly as it was. -/
theorem C3_unknown_token (salt : String) (now : Time) (req : Request)
    (token : String) (db : TrackDb) (h : findRecipient db token = none) :
    track_open salt now req token db = (.notFound, db) ∧
    track_click salt now req token db = (.notFound, db) ∧
    track_cta salt now req token db = (.notFound, db) ∧
    track_submit_attempt salt now req token db = (.notFound, db) ∧
    track_report salt now req token db = (.notFound, db) ∧
    track_landing_view salt now req token db = (.notFound, db) := by
  refine ⟨?_, ?_, ?_, ?_, ?_, ?_⟩ <;>
    simp [track_open, track_click, track_cta, track_submit_attempt,
      track_report, track_landing_view, h]

/-- C3 witness: the unknown token "missing" against the demo store. -/
theorem C3_unknown_token_witness :
    findRecipient demoDb "missing" = none ∧
    track_open "s" 3 emptyRequest "missing" demoDb = (.notFound, demoDb) :=
  ⟨by decide, (C3_unknown_token "s" 3 emptyRequest "missing" demoDb (by decide)).1⟩

/-! ## C5 — criticality label priority -/

/-- A recipient who reported the mail and also clicked the CTA. -/
def reportedRecipient : CampaignRecipient :=
  { baseRecipient with
    reported_at := some 3
    submit_attempted := true
    cta_click_count := 4 }

/-- A recipient who opened and clicked the mail link but never loaded the
landing page: `track_click` redirects to the landing page without the
`?t=` token, so no landing beacon fires and `landing_view_count` stays 0. -/
def clickOnlyRecipient : CampaignRecipient :=
  { baseRecipient with
    opened_at := some 3
    open_seen_at := some 3
    clicked_at := some 4
    click_count := 2 }

/-- C5, counterexample, two divergences: (a) the label of a reported
recipient is the Spanish string "Crítica", not "Critical" as the claim
states; (b) `_criticality_label` never consults `click_count`, so a
recipient with `click_count > 0` but `landing_view_count = 0` (and no CTA
click, submit or report) is labelled "Baja", not the claim's medium
label — the claim's "landing/click count > 0" rule fails on the code. -/
theorem C5_counterexample :
    (reportedRecipient.reported_at.isSome = true ∧
      _criticality_label reportedRecipient = "Crítica" ∧
      ("Crítica" : String) ≠ "Critical") ∧
    (clickOnlyRecipient.click_count ≠ 0 ∧
      clickOnlyRecipient.cta_click_count = 0 ∧
      clickOnlyRecipient.landing_view_count = 0 ∧
      clickOnlyRecipient.reported_at = none ∧
      clickOnlyRecipient.submit_attempted = false ∧
      _criticality_label clickOnlyRecipient = "Baja" ∧
      ("Baja" : String) ≠ "Media" ∧ ("Baja" : String) ≠ "Medium") := by decide

/-- C5, amended: `_criticality_label` evaluates its rules first-match-wins
in the fixed priority order reported → "Crítica", submit-attempted →
"Alta", cta- or landing-count positive → "Media", any open signal →
"Baja", otherwise "Sin señales"; in particular `reported_at` set forces
"Crítica" regardless of every other field. -/
theorem C5_amended (r : CampaignRecipient) :
    (_criticality_label r = "Crítica" ↔ r.reported_at.isSome = true) ∧
    (_criticality_label r = "Alta" ↔
      (r.reported_at.isSome = false ∧ r.submit_attempted = true)) ∧
    (_criticality_label r = "Media" ↔
      (r.reported_at.isSome = false ∧ r.submit_attempted = false ∧
        (r.cta_click_count ≠ 0 ∨ r.landing_view_count ≠ 0))) ∧
    (_criticality_label r = "Baja" ↔
      (r.reported_at.isSome = false ∧ r.submit_attempted = false ∧
        r.cta_click_count = 0 ∧ r.landing_view_count = 0 ∧
        (r.opened_at.isSome = true ∨ r.open_seen_at.isSome = true))) ∧
    (_criticality_label r = "Sin señales" ↔
      (r.reported_at.isSome = false ∧ r.submit_attempted = false ∧
        r.cta_click_count = 0 ∧ r.landing_view_count = 0 ∧
        r.opened_at.isSome = false ∧ r.open_seen_at.isSome = false)) := by
  unfold _criticality_label
  split_ifs with h1 h2 h3 h4 <;> simp_all [Option.isSome_iff_ne_none] <;> tauto

/-! ## C6 — one-shot latency fields, overwritten report channel -/

/-- A recipient whose first report (at time 2, channel "email") has
already been recorded. -/
def alreadyReported : CampaignRecipient :=
  { baseRecipient with
    reported_at := some 2
    report_channel := "email" }

/-- The store holding `alreadyReported`. -/
def reportedDb : TrackDb := { recipients := [alreadyReported], events := [] }

/-- A report request carrying `?channel=slack`. -/
def slackRequest : Request := { emptyRequest with channel := some "slack" }

/-- C6, counterexample: a second report callback through `track_report`
does change `report_channel` (from "email" to "slack"), refuting the
write-once part of the claim. -/
theorem C6_counterexample :
    ((track_report "s" 9 slackRequest "tok" reportedDb).2.recipients.map
      (fun r => r.report_channel) = ["slack"]) ∧
    ("slack" : String) ≠ "email" := by decide

/-- C6, amended: `report_channel` is overwritten by every report callback
with the latest channel; the latency fields are computed exactly once, at
the first occurrence of their event, as `event_time − sent_at`, and only
when `sent_at` is set — with `sent_at` unset they stay unset even after
the event. -/
theorem C6_amended (r : CampaignRecipient) (now : Time) (ch : String) :
    ((trackReportUpdate now ch r).report_channel = ch) ∧
    (r.sent_at = none →
      (trackClickUpdate now r).time_to_click_seconds = r.time_to_click_seconds) ∧
    (r.sent_at = none →
      (trackReportUpdate now ch r).time_to_report_seconds = r.time_to_report_seconds) ∧
    (∀ s, r.clicked_at = none → r.sent_at = some s →
      (trackClickUpdate now r).time_to_click_seconds = some (now - s)) ∧
    (∀ s, r.reported_at = none → r.sent_at = some s →
      (trackReportUpdate now ch r).time_to_report_seconds = some (now - s)) ∧
    (r.clicked_at.isSome = true →
      (trackClickUpdate now r).time_to_click_seconds = r.time_to_click_seconds) ∧
    (r.reported_at.isSome = true →
      (trackReportUpdate now ch r).time_to_report_seconds = r.time_to_report_seconds) := by
  unfold trackReportUpdate trackClickUpdate
  split_ifs with h1 h2 <;> simp_all

/-- C6 witness: the amended theorem evaluated on the fresh row (no
`sent_at`): the report channel is recorded, the click latency stays
unset. -/
theorem C6_amended_witness :
    (trackReportUpdate 9 "slack" baseRecipient).report_channel = "slack" ∧
    (trackClickUpdate 9 baseRecipient).time_to_click_seconds = none :=
  ⟨(C6_amended baseRecipient 9 "slack").1,
   (C6_amended baseRecipient 9 "slack").2.1 rfl⟩

/-! ## C7 — campaign window selection -/

/-- C7, counterexample: at `now = end_at` the campaign is still selected
by the scheduler's filter (`end_at__gte=now`), although the claim's
half-open window `[start_at, end_at)` excludes it. -/
theorem C7_counterexample :
    demoCampaign ∈ dueCampaigns 10 [demoCampaign] ∧
    ¬ ((10 : Time) < demoCampaign.end_at) := by
  constructor
  · decide
  · decide

/-- C7, amended: a campaign is selected by a scheduler invocation at time
`now` iff `start_at ≤ now ∧ now ≤ end_at` — the window is closed at both
ends, not half-open. -/
theorem C7_amended (now : Time) (cs : List Campaign) (c : Campaign) :
    c ∈ dueCampaigns now cs ↔ (c ∈ cs ∧ c.start_at ≤ now ∧ now ≤ c.end_at) := by
  simp [dueCampaigns, List.mem_filter, and_assoc]

/-! ## C8 — classifier determinism and tablet priority -/

/-- C8: the classifier is a pure function (same input, same signal tuple),
and because tablet keywords are checked before mobile keywords, every
user-agent containing "iPad" (case-insensitively) is classified "tablet" —
in particular the iPad example from the spec is "tablet", not "mobile". -/
theorem C8_classifier (ua : String)
    (h : _normalize_contains ua ["ipad"] = true) :
    (parse_user_agent ua = parse_user_agent ua) ∧
    ((parse_user_agent ua).device_type = "tablet") ∧
    ((parse_user_agent "Mozilla/5.0 (iPad; CPU OS 14_0)").device_type = "tablet") ∧
    ((parse_user_agent "Mozilla/5.0 (iPad; CPU OS 14_0)").device_type ≠ "mobile") := by
  refine ⟨rfl, ?_, by decide, by decide⟩
  have hib : _normalize_contains ua ["ipad", "tablet"] = true := by
    simp only [_normalize_contains, List.any_cons, List.any_nil,
      Bool.or_false, Bool.or_eq_true] at h ⊢
    exact Or.inl h
  simp [parse_user_agent, hib]

/-- C8 witness: the spec's iPad user-agent satisfies the hypothesis and is
classified as a tablet. -/
theorem C8_classifier_witness :
    _normalize_contains "Mozilla/5.0 (iPad; CPU OS 14_0)" ["ipad"] = true ∧
    (parse_user_agent "Mozilla/5.0 (iPad; CPU OS 14_0)").device_type = "tablet" :=
  ⟨by decide, (C8_classifier "Mozilla/5.0 (iPad; CPU OS 14_0)" (by decide)).2.1⟩

/-! ## C10 — empty user-agent defaults -/

/-- C10: with an empty user-agent the classifier returns the total default
tuple, the open-signal quality is "medium", and `_build_event_payload`
still produces a fully populated payload carrying those defaults. -/
theorem C10_empty_user_agent (salt fwd ra ref lang acc : String)
    (tz ch : Option String) :
    parse_user_agent "" = ⟨"unknown", "other", "other", "other", "other", false⟩ ∧
    infer_open_signal_quality "" = "medium" ∧
    ((_build_event_payload salt
        ⟨"", fwd, ra, ref, lang, acc, tz, ch⟩
        (infer_open_signal_quality "")).device_type = "unknown" ∧
     (_build_event_payload salt
        ⟨"", fwd, ra, ref, lang, acc, tz, ch⟩
        (infer_open_signal_quality "")).os_family = "other" ∧
     (_build_event_payload salt
        ⟨"", fwd, ra, ref, lang, acc, tz, ch⟩
        (infer_open_signal_quality "")).browser_family = "other" ∧
     (_build_event_payload salt
        ⟨"", fwd, ra, ref, lang, acc, tz, ch⟩
        (infer_open_signal_quality "")).email_client_hint = "other" ∧
     (_build_event_payload salt
        ⟨"", fwd, ra, ref, lang, acc, tz, ch⟩
        (infer_open_signal_quality "")).message_provider_hint = "other" ∧
     (_build_event_payload salt
        ⟨"", fwd, ra, ref, lang, acc, tz, ch⟩
        (infer_open_signal_quality "")).is_webview = false ∧
     (_build_event_payload salt
        ⟨"", fwd, ra, ref, lang, acc, tz, ch⟩
        (infer_open_signal_quality "")).open_signal_quality = "medium") := by
  have hpa : parse_user_agent "" = ⟨"unknown", "other", "other", "other", "other", false⟩ := by
    decide
  have hq : infer_open_signal_quality "" = "medium" := by decide
  refine ⟨hpa, hq, ?_⟩
  simp [_build_event_payload, hpa, hq]

/-! ## C2 — throttled selection of pending rows -/

/-- The scheduler's status filter, `status == pending`, as a predicate. -/
def isPending (r : CampaignRecipient) : Bool := decide (r.status = Status.pending)

theorem isPending_attemptSend (send : CampaignRecipient → Except String Unit)
    (a c : Nat) (now : Time) (r : CampaignRecipient) :
    isPending (attemptSend send a c now r).1 = false := by
  cases hs : send r <;> simp [attemptSend, hs, isPending]

theorem attemptSend_snd_crId (send : CampaignRecipient → Except String Unit)
    (a c : Nat) (now : Time) (r : CampaignRecipient) :
    (attemptSend send a c now r).2.campaignRecipientId = r.pk := by
  cases hs : send r <;> simp [attemptSend, hs]

/-- After one tick, the pending rows that remain are exactly the pending
rows beyond the selected throttle-sized slice, in order. -/
theorem tick_filter_pending (send : CampaignRecipient → Except String Unit)
    (a c : Nat) (now : Time) :
    ∀ (k : Nat) (rs : List CampaignRecipient),
      (tick send a c now k rs).1.filter isPending = (rs.filter isPending).drop k := by
  intro k rs
  induction rs generalizing k with
  | nil => simp [tick]
  | cons r t ih =>
    cases k with
    | zero => simp [tick]
    | succ k =>
      rw [tick]
      simp only [Nat.succ_ne_zero, if_false]
      by_cases hp : r.status = Status.pending
      · rw [if_pos hp]
        have hr : isPending r = true := by simp [isPending, hp]
        simp [List.filter_cons, isPending_attemptSend, hr, ih k]
      · rw [if_neg hp]
        have hr : isPending r = false := by simp [isPending, hp]
        simp [List.filter_cons, hr, ih (k + 1)]

/-- The audit entries of one tick identify exactly the first
`throttle`-many pending rows, in insertion order. -/
theorem tick_audit_ids (send : CampaignRecipient → Except String Unit)
    (a c : Nat) (now : Time) :
    ∀ (k : Nat) (rs : List CampaignRecipient),
      (tick send a c now k rs).2.map (fun e => e.campaignRecipientId)
        = ((rs.filter isPending).take k).map (fun r => r.pk) := by
  intro k rs
  induction rs generalizing k with
  | nil => simp [tick]
  | cons r t ih =>
    cases k with
    | zero => simp [tick]
    | succ k =>
      rw [tick]
      simp only [Nat.succ_ne_zero, if_false]
      by_cases hp : r.status = Status.pending
      · rw [if_pos hp]
        have hr : isPending r = true := by simp [isPending, hp]
        simp [List.filter_cons, hr, attemptSend_snd_crId, ih k]
      · rw [if_neg hp]
        have hr : isPending r = false := by simp [isPending, hp]
        simp [List.filter_cons, hr, ih (k + 1)]

/-- Every audit entry of a tick originates from a pending input row:
rows already `sent`, `failed` or `bounced` are never attempted. -/
theorem tick_audit_from_pending (send : CampaignRecipient → Except String Unit)
    (a c : Nat) (now : Time) :
    ∀ (k : Nat) (rs : List CampaignRecipient) (e : AuditLog),
      e ∈ (tick send a c now k rs).2 →
      ∃ r, r ∈ rs ∧ r.status = Status.pending ∧ r.pk = e.campaignRecipientId := by
  intro k rs
  induction rs generalizing k with
  | nil => simp [tick]
  | cons r t ih =>
    intro e he
    cases k with
    | zero => simp [tick] at he
    | succ k =>
      rw [tick] at he
      simp only [Nat.succ_ne_zero, if_false] at he
      by_cases hp : r.status = Status.pending
      · rw [if_pos hp] at he
        rcases List.mem_cons.mp he with he | he
        · exact ⟨r, List.mem_cons_self r t, hp,
            by rw [he, attemptSend_snd_crId]⟩
        · obtain ⟨r', hr', hps, hpk⟩ := ih k e he
          exact ⟨r', List.mem_cons_of_mem r hr', hps, hpk⟩
      · rw [if_neg hp] at he
        obtain ⟨r', hr', hps, hpk⟩ := ih (k + 1) e he
        exact ⟨r', List.mem_cons_of_mem r hr', hps, hpk⟩

/-- C2: with `throttle_per_minute = 5` and 12 pending rows, one tick
attempts exactly 5 (the first 5 pending rows, in order), leaves 7 rows
pending, never selects a non-pending row, and a second tick attempts
exactly the next 5 pending rows. -/
theorem C2_throttle (send send2 : CampaignRecipient → Except String Unit)
    (actor cid : Nat) (now now2 : Time) (rs : List CampaignRecipient)
    (h12 : (rs.filter isPending).length = 12) :
    ((tick send actor cid now 5 rs).2.length = 5) ∧
    (((tick send actor cid now 5 rs).1.filter isPending).length = 7) ∧
    ((tick send actor cid now 5 rs).2.map (fun e => e.campaignRecipientId)
      = ((rs.filter isPending).take 5).map (fun r => r.pk)) ∧
    (∀ (k : Nat) (xs : List CampaignRecipient) (e : AuditLog),
        e ∈ (tick send actor cid now k xs).2 →
        ∃ r, r ∈ xs ∧ r.status = Status.pending ∧ r.pk = e.campaignRecipientId) ∧
    ((tick send2 actor cid now2 5 (tick send actor cid now 5 rs).1).2.map
        (fun e => e.campaignRecipientId)
      = (((rs.filter isPending).drop 5).take 5).map (fun r => r.pk)) := by
  refine ⟨?_, ?_, tick_audit_ids send actor cid now 5 rs,
    fun k xs e he => tick_audit_from_pending send actor cid now k xs e he, ?_⟩
  · have h := congrArg List.length (tick_audit_ids send actor cid now 5 rs)
    simpa [h12] using h
  · rw [tick_filter_pending]
    simp [h12]
  · rw [tick_audit_ids, tick_filter_pending]

/-- C2 witness: 12 concrete pending rows, an always-succeeding transport,
throttle 5. -/
theorem C2_throttle_witness :
    (twelveRows.filter isPending).length = 12 ∧
    (tick (fun _ => Except.ok ()) 1 1 7 5 twelveRows).2.length = 5 ∧
    ((tick (fun _ => Except.ok ()) 1 1 7 5 twelveRows).1.filter isPending).length = 7 :=
  ⟨by decide,
   (C2_throttle (fun _ => Except.ok ()) (fun _ => Except.ok ()) 1 1 7 8 twelveRows
      (by decide)).1,
   (C2_throttle (fun _ => Except.ok ()) (fun _ => Except.ok ()) 1 1 7 8 twelveRows
      (by decide)).2.1⟩

/-! ## C4 — failure isolation within a tick -/

/-- C4, counterexample: the transport error for row 3 is a plain delivery
error, yet the row ends `bounced`, not `failed` — the code marks every
delivery error `bounced` and never uses `failed`. -/
theorem C4_counterexample :
    ((tick sendFail3 1 1 7 5 fiveRows).1.map (fun r => r.status)
      = [.sent, .sent, .bounced, .sent, .sent]) ∧
    ((tick sendFail3 1 1 7 5 fiveRows).2.map (fun e => e.action)
      = ["campaign_email_sent", "campaign_email_sent", "campaign_email_failed",
         "campaign_email_sent", "campaign_email_sent"]) ∧
    Status.bounced ≠ Status.failed := by decide

/-- C4, amended: if delivery raises for recipient #3 of 5 in a tick, that
row's status becomes `bounced` (the code never distinguishes hard bounces
nor uses `failed`), a "campaign_email_failed" audit entry carrying the
error text is written, and the tick continues: #4 and #5 are still
attempted and reach `sent` with `sent_at` set. -/
theorem C4_amended (send : CampaignRecipient → Except String Unit)
    (actor cid : Nat) (now : Time) (e : String)
    (r1 r2 r3 r4 r5 : CampaignRecipient)
    (hp1 : r1.status = .pending) (hp2 : r2.status = .pending)
    (hp3 : r3.status = .pending) (hp4 : r4.status = .pending)
    (hp5 : r5.status = .pending)
    (h1 : send r1 = .ok ()) (h2 : send r2 = .ok ()) (h3 : send r3 = .error e)
    (h4 : send r4 = .ok ()) (h5 : send r5 = .ok ()) :
    tick send actor cid now 5 [r1, r2, r3, r4, r5] =
      ([{ r1 with status := .sent, sent_at := some now },
        { r2 with status := .sent, sent_at := some now },
        { r3 with status := .bounced },
        { r4 with status := .sent, sent_at := some now },
        { r5 with status := .sent, sent_at := some now }],
       [{ action := "campaign_email_sent", actor := actor, campaignId := cid, recipientId := r1.recipient_id, campaignRecipientId := r1.pk, error := none },
        { action := "campaign_email_sent", actor := actor, campaignId := cid, recipientId := r2.recipient_id, campaignRecipientId := r2.pk, error := none },
        { action := "campaign_email_failed", actor := actor, campaignId := cid, recipientId := r3.recipient_id, campaignRecipientId := r3.pk, error := some e },
        { action := "campaign_email_sent", actor := actor, campaignId := cid, recipientId := r4.recipient_id, campaignRecipientId := r4.pk, error := none },
        { action := "campaign_email_sent", actor := actor, campaignId := cid, recipientId := r5.recipient_id, campaignRecipientId := r5.pk, error := none }]) := by
  simp [tick, attemptSend, hp1, hp2, hp3, hp4, hp5, h1, h2, h3, h4, h5]

/-- C4 witness: the amended theorem evaluated on five concrete pending
rows with the transport failing on primary key 3. -/
theorem C4_amended_witness :
    tick sendFail3 1 1 7 5
        [pendingRow 1, pendingRow 2, pendingRow 3, pendingRow 4, pendingRow 5] =
      ([{ pendingRow 1 with status := .sent, sent_at := some 7 },
        { pendingRow 2 with status := .sent, sent_at := some 7 },
        { pendingRow 3 with status := .bounced },
        { pendingRow 4 with status := .sent, sent_at := some 7 },
        { pendingRow 5 with status := .sent, sent_at := some 7 }],
       [{ action := "campaign_email_sent", actor := 1, campaignId := 1, recipientId := 101, campaignRecipientId := 1, error := none },
        { action := "campaign_email_sent", actor := 1, campaignId := 1, recipientId := 102, campaignRecipientId := 2, error := none },
        { action := "campaign_email_failed", actor := 1, campaignId := 1, recipientId := 103, campaignRecipientId := 3, error := some "SMTP 451 temporary failure" },
        { action := "campaign_email_sent", actor := 1, campaignId := 1, recipientId := 104, campaignRecipientId := 4, error := none },
        { action := "campaign_email_sent", actor := 1, campaignId := 1, recipientId := 105, campaignRecipientId := 5, error := none }]) := by
  have h := C4_amended sendFail3 1 1 7 "SMTP 451 temporary failure"
    (pendingRow 1) (pendingRow 2) (pendingRow 3) (pendingRow 4) (pendingRow 5)
    (by decide) (by decide) (by decide) (by decide) (by decide)
    (by rfl) (by rfl) (by rfl) (by rfl) (by rfl)
  rw [h]
  decide

/-! ## C9 — IP truncation and salted hashing -/

set_option maxRecDepth 16384

/-- Octet parsing inverts decimal rendering on the octet range. -/
theorem parseDecOctet_decStr_fin : ∀ i : Fin 256, parseDecOctet (decStr i.1) = some i.1 := by
  decide

theorem dot_not_mem_decStr_fin : ∀ i : Fin 256, '.' ∉ decStr i.1 := by decide

theorem decStr_ne_nil_fin : ∀ i : Fin 256, decStr i.1 ≠ [] := by decide

theorem parseDecOctet_decStr (a : Nat) (ha : a ≤ 255) :
    parseDecOctet (decStr a) = some a :=
  parseDecOctet_decStr_fin ⟨a, by omega⟩

theorem dot_not_mem_decStr (a : Nat) (ha : a ≤ 255) : '.' ∉ decStr a :=
  dot_not_mem_decStr_fin ⟨a, by omega⟩

theorem decStr_ne_nil (a : Nat) (ha : a ≤ 255) : decStr a ≠ [] :=
  decStr_ne_nil_fin ⟨a, by omega⟩

theorem splitOnChar_of_not_mem {c : Char} {xs : List Char} (h : c ∉ xs) :
    splitOnChar c xs = [xs] := by
  induction xs with
  | nil => rfl
  | cons x t ih =>
    have hx : ¬ x = c := fun he => h (he ▸ List.mem_cons_self x t)
    have ht : c ∉ t := fun hm => h (List.mem_cons_of_mem x hm)
    rw [splitOnChar, if_neg hx, ih ht]

theorem splitOnChar_append (c : Char) {xs : List Char} (ys : List Char)
    (h : c ∉ xs) : splitOnChar c (xs ++ c :: ys) = xs :: splitOnChar c ys := by
  induction xs with
  | nil => simp [splitOnChar]
  | cons x t ih =>
    have hx : ¬ x = c := fun he => h (he ▸ List.mem_cons_self x t)
    have ht : c ∉ t := fun hm => h (List.mem_cons_of_mem x hm)
    rw [List.cons_append, splitOnChar, if_neg hx, ih ht]

/-- The dotted-quad decimal string of four octet values. -/
def ipv4String (a b c d : Nat) : String :=
  String.mk (decStr a ++ '.' :: (decStr b ++ '.' :: (decStr c ++ '.' :: decStr d)))

theorem splitOnChar_ipv4String (a b c d : Nat) (ha : a ≤ 255) (hb : b ≤ 255)
    (hc : c ≤ 255) (hd : d ≤ 255) :
    splitOnChar '.' (ipv4String a b c d).data
      = [decStr a, decStr b, decStr c, decStr d] := by
  have hma := dot_not_mem_decStr a ha
  have hmb := dot_not_mem_decStr b hb
  have hmc := dot_not_mem_decStr c hc
  have hmd := dot_not_mem_decStr d hd
  show splitOnChar '.'
      (decStr a ++ '.' :: (decStr b ++ '.' :: (decStr c ++ '.' :: decStr d))) = _
  rw [splitOnChar_append _ _ hma, splitOnChar_append _ _ hmb,
    splitOnChar_append _ _ hmc, splitOnChar_of_not_mem hmd]

theorem parseIPv4_ipv4String (a b c d : Nat) (ha : a ≤ 255) (hb : b ≤ 255)
    (hc : c ≤ 255) (hd : d ≤ 255) :
    parseIPv4 (ipv4String a b c d).data
      = some (((a * 256 + b) * 256 + c) * 256 + d) := by
  simp only [parseIPv4, splitOnChar_ipv4String a b c d ha hb hc hd,
    parseDecOctet_decStr a ha, parseDecOctet_decStr b hb,
    parseDecOctet_decStr c hc, parseDecOctet_decStr d hd]

theorem parseIP_ipv4String (a b c d : Nat) (ha : a ≤ 255) (hb : b ≤ 255)
    (hc : c ≤ 255) (hd : d ≤ 255) :
    parseIP (ipv4String a b c d)
      = some (.v4 (((a * 256 + b) * 256 + c) * 256 + d)) := by
  unfold parseIP
  rw [parseIPv4_ipv4String a b c d ha hb hc hd]

theorem ipv4String_ne_empty (a b c d : Nat) (ha : a ≤ 255) :
    ipv4String a b c d ≠ "" := by
  intro h
  have hne : decStr a ++ ('.' :: (decStr b ++ '.' :: (decStr c ++ '.' :: decStr d)))
      ≠ ([] : List Char) := by
    simp [decStr_ne_nil a ha]
  exact hne (congrArg String.data h)

theorem fmtIPv4_masked (a b c : Nat) (ha : a ≤ 255) (hb : b ≤ 255) (hc : c ≤ 255) :
    fmtIPv4 (((a * 256 + b) * 256 + c) * 256)
      = String.mk (decStr a ++ '.' :: (decStr b ++ '.' :: (decStr c ++ '.' :: decStr 0))) := by
  unfold fmtIPv4
  have e1 : ((a * 256 + b) * 256 + c) * 256 / 16777216 % 256 = a := by omega
  have e2 : ((a * 256 + b) * 256 + c) * 256 / 65536 % 256 = b := by omega
  have e3 : ((a * 256 + b) * 256 + c) * 256 / 256 % 256 = c := by omega
  have e4 : ((a * 256 + b) * 256 + c) * 256 % 256 = 0 := by omega
  rw [e1, e2, e3, e4]

/-- Every syntactically valid dotted-quad IPv4 address is truncated to its
/24 network: the first three octets survive, the last becomes 0. -/
theorem truncate_ip_ipv4 (a b c d : Nat) (ha : a ≤ 255) (hb : b ≤ 255)
    (hc : c ≤ 255) (hd : d ≤ 255) :
    truncate_ip (ipv4String a b c d) = ipv4String a b c 0 ++ "/24" := by
  unfold truncate_ip
  rw [if_neg (ipv4String_ne_empty a b c d ha), parseIP_ipv4String a b c d ha hb hc hd]
  show fmtIPv4 ((((a * 256 + b) * 256 + c) * 256 + d) / 256 * 256) ++ "/24" = _
  have hv : (((a * 256 + b) * 256 + c) * 256 + d) / 256 * 256
      = ((a * 256 + b) * 256 + c) * 256 := by omega
  rw [hv, fmtIPv4_masked a b c ha hb hc]
  rfl

/-- Every parseable IPv6 address is truncated to its /48 network: the low
80 bits are zeroed and the canonical compressed form is rendered. -/
theorem truncate_ip_ipv6 (s : String) (ip : Nat)
    (h : parseIP s = some (.v6 ip)) :
    truncate_ip s = fmtIPv6 (ip / 2 ^ 80 * 2 ^ 80) ++ "/48" := by
  have hn : parseIP "" = none := by decide
  have hs : s ≠ "" := by
    intro he
    rw [he, hn] at h
    cases h
  unfold truncate_ip
  rw [if_neg hs, h]

theorem truncate_ip_unparseable (s : String) (h : parseIP s = none) :
    truncate_ip s = "" := by
  unfold truncate_ip
  by_cases hs : s = ""
  · rw [if_pos hs]
  · rw [if_neg hs, h]

/-- C9, counterexample: an unparseable non-empty address yields the empty
string from `truncate_ip` but NOT from `hash_ip`, which hashes the raw
string — refuting the "empty from both functions" clause. -/
theorem C9_counterexample :
    truncate_ip "this-is-not-an-ip" = "" ∧
    hash_ip "pepper" "this-is-not-an-ip" ≠ "" := by decide

/-- C9, amended: IPv4 addresses are truncated to their /24 network and
IPv6 addresses to their /48 network; hashing is deterministic in (salt,
address) and differs between the two example salts; an unparseable or
absent address yields the empty string from truncation, while the hash
function returns the empty string only for an absent (empty) address and
hashes any non-empty string, parseable or not; neither raises. -/
theorem C9_truncation_and_hash :
    (∀ a b c d : Nat, a ≤ 255 → b ≤ 255 → c ≤ 255 → d ≤ 255 →
        truncate_ip (ipv4String a b c d) = ipv4String a b c 0 ++ "/24") ∧
    (∀ (s : String) (ip : Nat), parseIP s = some (.v6 ip) →
        truncate_ip s = fmtIPv6 (ip / 2 ^ 80 * 2 ^ 80) ++ "/48") ∧
    (truncate_ip "192.168.1.55" = "192.168.1.0/24") ∧
    (truncate_ip "2001:db8:85a3:8d3:1319:8a2e:370:7348" = "2001:db8:85a3::/48") ∧
    (∀ salt ip : String, hash_ip salt ip = hash_ip salt ip) ∧
    (hash_ip "salt1" "192.168.1.55" ≠ hash_ip "salt2" "192.168.1.55") ∧
    (∀ s : String, parseIP s = none → truncate_ip s = "") ∧
    (truncate_ip "" = "" ∧ hash_ip "pepper" "" = "") := by
  refine ⟨truncate_ip_ipv4, truncate_ip_ipv6, by decide, by decide,
    fun _ _ => rfl, by decide, truncate_ip_unparseable, by decide, rfl⟩

/-- C9 witness: the /24 truncation theorem applied at the spec's example
address `192.168.1.55`. -/
theorem C9_truncation_witness :
    truncate_ip (ipv4String 192 168 1 55) = ipv4String 192 168 1 0 ++ "/24" :=
  C9_truncation_and_hash.1 192 168 1 55 (by decide) (by decide) (by decide)
    (by decide)

end Awaresim
